import Mathlib

/-!
# Verified model of the ML.py extraction and scoring pipeline

A shallow embedding of the core functions of `src/ML.py` (a PDF product
extraction, market-scoring and kit-composition pipeline), together with
theorems settling the specification claims about it.

Modelling conventions:
* Python text is modelled as `List Char`; `String` is used for opaque labels
  (kit names, recommendations) that are only compared for equality or have
  characters inspected through `.data`.
* Python floats are modelled as `ℚ` (the source only adds, multiplies and
  divides decimal quantities); `float('x')` failure is an `Option`.
* Python regular expressions are modelled by a small backtracking engine
  (`RE` / `mrun`) whose alternation and greedy/lazy repetition priorities
  mirror the backtracking order of Python's `re` module; `\d` and `\s` are
  modelled over their ASCII ranges (all inputs of interest are in that
  fragment).
* External collaborators (the OpenAI completion call, `random.sample`) are
  modelled as explicit parameters: the already-decoded JSON payload of an AI
  response, and a sampling oracle.
* Fields of the source's result dictionaries that no verified property
  consumes (`improvement_suggestions` texts, `trends`) are omitted from the
  corresponding records.
-/

/-! ## String primitives -/

/-- Python `\s` over its ASCII members: space, tab, LF, VT, FF, CR. -/
def wsC (c : Char) : Bool :=
  c == ' ' || c == '\t' || c == '\n' || c == '\r' ||
  c == Char.ofNat 11 || c == Char.ofNat 12

/-- Python `str.lower` on one char: ASCII letters and the Latin-1
uppercase letters (U+00C0–U+00DE except ×) map down by 0x20. -/
def pyLowerChar (c : Char) : Char :=
  if 'A' ≤ c ∧ c ≤ 'Z' then Char.ofNat (c.toNat + 32)
  else if 0xC0 ≤ c.toNat ∧ c.toNat ≤ 0xDE ∧ c.toNat ≠ 0xD7 then
    Char.ofNat (c.toNat + 32)
  else c

/-- Python `str.lower` over a char list. -/
def lowerL (s : List Char) : List Char := s.map pyLowerChar

/-- Python `str.strip()`: drop leading and trailing whitespace. -/
def pyStrip (s : List Char) : List Char :=
  ((s.dropWhile wsC).reverse.dropWhile wsC).reverse

/-- `needle in hay` for Python strings: contiguous-substring test. -/
def containsSub (needle hay : List Char) : Bool :=
  needle.isPrefixOf hay ||
    match hay with
    | [] => false
    | _ :: rest => containsSub needle rest

/-! ## A small regex engine

Mirrors the semantics of the `re` patterns used in ML.py: leftmost match,
alternation tries the left branch first, greedy repetition prefers longer
matches, lazy repetition prefers shorter matches, with full backtracking. -/

/-- Regular-expression AST. `rep a lo hi greedy` is `a{lo,hi}` (`hi = none`
means unbounded); `grp n a` is capturing group `n`; `eol` is `$`. -/
inductive RE where
  | cls (p : Char → Bool)
  | str (s : List Char)
  | cat (a b : RE)
  | alt (a b : RE)
  | rep (a : RE) (lo : Nat) (hi : Option Nat) (greedy : Bool)
  | grp (n : Nat) (a : RE)
  | eol

/-- Captured groups: group number ↦ captured text. -/
def Caps := List (Nat × List Char)

/-- Backtracking matcher in continuation-passing style. `k` receives the
remaining input and the captures; the first success in priority order wins.
`fuel` only bounds recursion depth and is chosen large enough below. -/
def mrun {α : Type} : Nat → RE → List Char → Caps →
    (List Char → Caps → Option α) → Option α
  | 0, _, _, _, _ => none
  | _ + 1, RE.cls p, s, caps, k =>
    match s with
    | [] => none
    | c :: rest => if p c then k rest caps else none
  | _ + 1, RE.str l, s, caps, k =>
    if l.isPrefixOf s then k (s.drop l.length) caps else none
  | f + 1, RE.cat a b, s, caps, k =>
    mrun f a s caps (fun s' caps' => mrun f b s' caps' k)
  | f + 1, RE.alt a b, s, caps, k =>
    (mrun f a s caps k).orElse (fun _ => mrun f b s caps k)
  | f + 1, RE.rep a lo hi g, s, caps, k =>
    match lo with
    | l + 1 =>
      mrun f a s caps fun s' caps' =>
        mrun f (RE.rep a l (hi.map (· - 1)) g) s' caps' k
    | 0 =>
      match hi with
      | some 0 => k s caps
      | _ =>
        let more := fun (_ : Unit) =>
          mrun f a s caps fun s' caps' =>
            if s'.length < s.length then
              mrun f (RE.rep a 0 (hi.map (· - 1)) g) s' caps' k
            else none
        if g then (more ()).orElse (fun _ => k s caps)
        else (k s caps).orElse (fun _ => more ())
  | f + 1, RE.grp n a, s, caps, k =>
    mrun f a s caps fun s' caps' =>
      k s' ((n, s.take (s.length - s'.length)) :: caps')
  | _ + 1, RE.eol, s, caps, k => if s.isEmpty then k s caps else none

/-- Ample recursion fuel for a match attempt on `s`. -/
def reFuel (s : List Char) : Nat := (s.length + 4) * 400

/-- Match `r` anchored at the start of `s` (a pattern beginning with `^`). -/
def reSearchAt (r : RE) (s : List Char) : Option Caps :=
  mrun (reFuel s) r s [] fun _ caps => some caps

/-- `re.search` for an unanchored pattern: try each start, leftmost first. -/
def reSearch (r : RE) : List Char → Option Caps
  | [] => reSearchAt r []
  | c :: rest =>
    match reSearchAt r (c :: rest) with
    | some caps => some caps
    | none => reSearch r rest

/-- Text of capture group `n`, if the group matched. -/
def capGet (caps : Caps) (n : Nat) : Option (List Char) :=
  (caps.find? (fun p => p.1 == n)).map (·.2)

/-- `\d` (ASCII digits). -/
def digitC (c : Char) : Bool := c.isDigit

/-- `[A-Z0-9]`. -/
def upAlnumC (c : Char) : Bool := ('A' ≤ c && c ≤ 'Z') || c.isDigit

/-- `.` (any char except newline). -/
def dotC (c : Char) : Bool := c != '\n'

/-- `[\d.,]`. -/
def digitDotCommaC (c : Char) : Bool := c.isDigit || c == '.' || c == ','

/-- `\s+`. -/
def wsPlus : RE := .rep (.cls wsC) 1 none true

/-- `\s*`. -/
def wsStar : RE := .rep (.cls wsC) 0 none true

/-- `\d+`. -/
def digPlus : RE := .rep (.cls digitC) 1 none true

/-- `\d{n}`. -/
def digN (n : Nat) : RE := .rep (.cls digitC) n (some n) true

/-! ## Line Classifier (`is_header_or_footer`, `improved_is_header_or_footer`,
ML.py lines 339–419) -/

/-- The baseline header/footer vocabulary (ML.py lines 353–357). -/
def headerTerms : List (List Char) :=
  ["unid".data, "valor".data, "quantidade".data, "qtde".data, "total".data,
   "subtotal".data, "página".data, "page".data, "item".data, "código".data,
   "pedido".data, "emissão".data, "cnpj".data, "cpf".data, "telefone".data,
   "email".data, "www".data, "http".data, "endereço".data]

/-- The improved vocabulary (ML.py lines 383–390): the same nineteen terms,
in the same order, followed by the added ones. -/
def improvedHeaderTerms : List (List Char) :=
  headerTerms ++
  ["data".data, "orçamento".data, "cotação".data, "nota fiscal".data,
   "nf-e".data, "nfe".data, "cliente".data, "fornecedor".data,
   "contato".data, "frete".data, "entrega".data, "prazo".data,
   "preço".data, "valor unit".data, "catálogo".data, "referência".data,
   "ref".data]

/-- `is_header_or_footer` (ML.py lines 339–367): empty is noise; a line of
fewer than 25 chars containing a vocabulary term is noise. -/
def is_header_or_footer (text : List Char) : Bool :=
  if text.isEmpty then true
  else if text.length < 25 then
    headerTerms.any fun t => containsSub t (lowerL text)
  else false

/-- `r'^página\s+\d+\s+de\s+\d+$'`. -/
def hpPagina : RE :=
  .cat (.str "página".data) (.cat wsPlus (.cat digPlus
    (.cat wsPlus (.cat (.str "de".data) (.cat wsPlus (.cat digPlus .eol))))))

/-- `r'^pedido\s+n[º°]?\s*\d+'`. -/
def hpPedido : RE :=
  .cat (.str "pedido".data) (.cat wsPlus (.cat (.str "n".data)
    (.cat (.rep (.cls fun c => c == 'º' || c == '°') 0 (some 1) true)
      (.cat wsStar digPlus))))

/-- `r'^emissão:\s+\d{2}/\d{2}/\d{4}'`. -/
def hpEmissao : RE :=
  .cat (.str "emissão:".data) (.cat wsPlus (.cat (digN 2) (.cat (.str "/".data)
    (.cat (digN 2) (.cat (.str "/".data) (digN 4))))))

/-- `r'^data:'`. -/
def hpData : RE := .str "data:".data

/-- `r'^\d{2}/\d{2}/\d{4}\s+\d{2}:\d{2}'`. -/
def hpDateTime : RE :=
  .cat (digN 2) (.cat (.str "/".data) (.cat (digN 2) (.cat (.str "/".data)
    (.cat (digN 4) (.cat wsPlus (.cat (digN 2)
      (.cat (.str ":".data) (digN 2))))))))

/-- `r'^nome:'`. -/
def hpNome : RE := .str "nome:".data

/-- `r'^fone:'`. -/
def hpFone : RE := .str "fone:".data

/-- `r'^produto\s+descrição\s+valor'`. -/
def hpProdutoDescricao : RE :=
  .cat (.str "produto".data) (.cat wsPlus
    (.cat (.str "descrição".data) (.cat wsPlus (.str "valor".data))))

/-- `r'^cod\.?\s+produto'`. -/
def hpCodProduto : RE :=
  .cat (.str "cod".data) (.cat (.rep (.str ".".data) 0 (some 1) true)
    (.cat wsPlus (.str "produto".data)))

/-- `r'^nenhum registro encontrado'`. -/
def hpNenhum : RE := .str "nenhum registro encontrado".data

/-- `r'^-+$'`. -/
def hpHyphens : RE := .cat (.rep (.str "-".data) 1 none true) .eol

/-- The positional header/footer patterns of ML.py lines 401–413. -/
def improvedHeaderPatterns : List RE :=
  [hpPagina, hpPedido, hpEmissao, hpData, hpDateTime, hpNome, hpFone,
   hpProdutoDescricao, hpCodProduto, hpNenhum, hpHyphens]

/-- `improved_is_header_or_footer` (ML.py lines 369–419): the widened
vocabulary check plus the start-anchored patterns, both on the lowered text. -/
def improved_is_header_or_footer (text : List Char) : Bool :=
  if text.isEmpty then true
  else
    (text.length < 25 &&
      improvedHeaderTerms.any fun t => containsSub t (lowerL text)) ||
    improvedHeaderPatterns.any fun r => (reSearchAt r (lowerL text)).isSome

/-! ## The shared line parser (`parse_product_line`, ML.py lines 279–337) -/

/-- A parsed product record: `{code, description, price}`. -/
structure ProductRec where
  code : Option (List Char)
  description : List Char
  price : Option ℚ
  deriving DecidableEq, Repr

/-- The code-token shape `[A-Z0-9]{2,12}[-]?[A-Z0-9]{1,8}`. -/
def codeTokenRE : RE :=
  .cat (.rep (.cls upAlnumC) 2 (some 12) true)
    (.cat (.rep (.str "-".data) 0 (some 1) true)
      (.rep (.cls upAlnumC) 1 (some 8) true))

/-- `r'^([A-Z0-9]{2,12}[-]?[A-Z0-9]{1,8})\s+(.*?)(?:\s+\d+\s+[\d.,]+|\s*$)'`
(ML.py line 290). -/
def productLineRE : RE :=
  .cat (.grp 1 codeTokenRE)
    (.cat wsPlus
      (.cat (.grp 2 (.rep (.cls dotC) 0 none false))
        (.alt
          (.cat wsPlus (.cat digPlus
            (.cat wsPlus (.rep (.cls digitDotCommaC) 1 none true))))
          (.cat wsStar .eol))))

/-- `r'(\d+[,.]\d+)'` (ML.py line 298). -/
def priceRE : RE :=
  .grp 1 (.cat digPlus
    (.cat (.cls fun c => c == ',' || c == '.') digPlus))

/-- `r'^[A-Z0-9]{2,12}[-]?[A-Z0-9]{1,8}$'` (ML.py line 318). -/
def codeFullRE : RE := .cat codeTokenRE .eol

/-- Parse a digit string into a `Nat` (helper for float parsing). -/
def digitsVal (l : List Char) : Nat :=
  l.foldl (fun n c => 10 * n + (c.toNat - 48)) 0

/-- Python `float` restricted to the shapes that reach it here:
an optional-dot decimal numeral. `none` models the `ValueError` branch. -/
def pyFloatQ (s : List Char) : Option ℚ :=
  match s.splitOn '.' with
  | [a] => if a ≠ [] ∧ a.all Char.isDigit then some (digitsVal a : ℚ) else none
  | [a, b] =>
    if (a ≠ [] ∨ b ≠ []) ∧ a.all Char.isDigit ∧ b.all Char.isDigit then
      some ((digitsVal a : ℚ) + (digitsVal b : ℚ) / (10 : ℚ) ^ b.length)
    else none
  | _ => none

/-- `price_str.replace('.', '').replace(',', '.')` (ML.py line 302). -/
def priceNormalize (s : List Char) : List Char :=
  (s.filter (· ≠ '.')).map fun c => if c = ',' then '.' else c

/-- The price extracted by `re.search(r'(\d+[,.]\d+)', line)` plus locale
normalization; `none` when absent or unparsable (ML.py lines 297–304). -/
def extractLinePrice (line : List Char) : Option ℚ :=
  match reSearch priceRE line with
  | some caps =>
    match capGet caps 1 with
    | some p => pyFloatQ (priceNormalize p)
    | none => none
  | none => none

/-- `re.split(r'\s{2,}|\t', line)`: split on runs of two or more whitespace
chars (greedy) or a single tab (ML.py line 315). -/
def pySplitCols (s : List Char) (cur : List Char) : List (List Char) :=
  match s with
  | [] => [cur.reverse]
  | c :: rest =>
    let run := (List.takeWhile wsC (c :: rest)).length
    if 2 ≤ run then
      cur.reverse :: pySplitCols (rest.drop (run - 1)) []
    else if c = '\t' then cur.reverse :: pySplitCols rest []
    else pySplitCols rest (c :: cur)
termination_by s.length
decreasing_by
  all_goals simp [List.length_drop]
  all_goals omega

/-- `parse_product_line` (ML.py lines 279–337): the three attempts in order. -/
def parse_product_line (line : List Char) : Option ProductRec :=
  let attempt1 : Option ProductRec :=
    match reSearchAt productLineRE line with
    | some caps =>
      let code := pyStrip ((capGet caps 1).getD [])
      let description := pyStrip ((capGet caps 2).getD [])
      if 5 ≤ description.length ∧ ¬ is_header_or_footer description then
        some ⟨some code, description, extractLinePrice line⟩
      else none
    | none => none
  match attempt1 with
  | some r => some r
  | none =>
    let parts := pySplitCols line []
    let attempt2 : Option ProductRec :=
      if 2 ≤ parts.length then
        let p0 := parts.getD 0 []
        let p1 := parts.getD 1 []
        if (reSearchAt codeFullRE p0).isSome then
          if 5 ≤ p1.length ∧ ¬ is_header_or_footer p1 then
            some ⟨some p0, p1, none⟩
          else none
        else none
      else none
    match attempt2 with
    | some r => some r
    | none =>
      if 10 ≤ line.length ∧ ¬ is_header_or_footer line then
        some ⟨none, line, none⟩
      else none

/-! ## Deduplication of merged extractor outputs
(`enhanced_extract_products_from_pdf`, ML.py lines 201–215) -/

/-- Truthiness of `product.get('code', '')`: present and non-empty. -/
def codeTruthy : Option (List Char) → Bool
  | none => false
  | some c => !c.isEmpty

/-- The dedup loop: a record is appended when its normalized description is
non-empty and (unseen, or the record's code is truthy). -/
def dedupGo : List ProductRec → List (List Char) → List ProductRec →
    List ProductRec
  | [], _, acc => acc.reverse
  | p :: rest, seen, acc =>
    let desc := lowerL (pyStrip p.description)
    if ¬ desc.isEmpty ∧ (desc ∉ seen ∨ codeTruthy p.code) then
      dedupGo rest (desc :: seen) (p :: acc)
    else dedupGo rest seen acc

/-- The deduplicated product list built from the concatenated outputs of the
four extraction strategies (ML.py lines 202–211). -/
def dedupProducts (all_products : List ProductRec) : List ProductRec :=
  dedupGo all_products [] []

/-- Normalized identity of a record: `description.strip().lower()`. -/
def normDesc (p : ProductRec) : List Char := lowerL (pyStrip p.description)

/-! ## Fee computation (`calculate_mercado_livre_fees_detailed`,
ML.py lines 1471–1535) -/

/-- The `details` sub-dictionary of a fee breakdown. -/
structure FeeDetails where
  base_fee_percentage : ℚ
  sale_fee : ℚ
  fixed_fee : ℚ
  antifraud_fee : ℚ
  shipping_fee : ℚ
  deriving DecidableEq, Repr

/-- A fee breakdown; `details = none` models the empty `details` dict of the
degenerate branch. -/
structure FeeBreakdown where
  price : ℚ
  fee : ℚ
  net : ℚ
  margin : ℚ
  details : Option FeeDetails
  deriving DecidableEq, Repr

/-- The all-zero breakdown returned for invalid prices (ML.py line 1483). -/
def zeroFees : FeeBreakdown := ⟨0, 0, 0, 0, none⟩

/-- A Python number argument: a numeric value or a non-`int`/`float` value
(the `isinstance` guard's negative case). -/
inductive PyNum where
  | num (q : ℚ)
  | nonNum
  deriving DecidableEq

/-- Category-keyword adjustment of the base fee rate (ML.py lines 1489–1498);
an absent or empty category keeps the default 16%. -/
def baseFeeRate (category : Option (List Char)) : ℚ :=
  match category with
  | none => 16 / 100
  | some cat =>
    if cat.isEmpty then 16 / 100
    else
      let cl := lowerL cat
      if containsSub "celular".data cl || containsSub "smartphone".data cl then
        17 / 100
      else if containsSub "informática".data cl ||
          containsSub "computador".data cl then 16 / 100
      else if containsSub "móveis".data cl ||
          containsSub "decoração".data cl then 15 / 100
      else 16 / 100

/-- `calculate_mercado_livre_fees_detailed` (ML.py lines 1471–1535). -/
def calculate_mercado_livre_fees_detailed (price : PyNum)
    (category : Option (List Char)) : FeeBreakdown :=
  match price with
  | .nonNum => zeroFees
  | .num p =>
    if p ≤ 0 then zeroFees
    else
      let base := baseFeeRate category
      let sale_fee := p * base
      let fixed_fee : ℚ := if p < 79 then 5 else 0
      let antifraud_fee : ℚ := if p > 120 then p * (15 / 1000) else 0
      let shipping_fee : ℚ := 0
      let total_fee := sale_fee + fixed_fee + antifraud_fee + shipping_fee
      let net := p - total_fee
      let margin := if p > 0 then (net / p) * 100 else 0
      ⟨p, total_fee, net, margin,
        some ⟨base * 100, sale_fee, fixed_fee, antifraud_fee, shipping_fee⟩⟩

/-! ## Market Signal Aggregator (`calculate_market_metrics`,
`calculate_std_dev`, `calculate_seller_metrics`, `process_fee_metrics`,
ML.py lines 1811–1983) -/

/-- One marketplace search result. -/
structure Listing where
  price : ℚ
  sold_count : ℚ
  deriving DecidableEq, Repr

/-- One seller record. -/
structure Seller where
  seller_level : List Char
  sales : ℚ
  rating : ℚ
  deriving DecidableEq, Repr

/-- Mean of a value list, 0 when empty (the `if values else 0` idiom). -/
def listAvg (l : List ℚ) : ℚ := if l.isEmpty then 0 else l.sum / l.length

/-- `min(values)` guarded by emptiness. -/
def listMin : List ℚ → ℚ
  | [] => 0
  | x :: xs => xs.foldl min x

/-- `max(values)` guarded by emptiness. -/
def listMax : List ℚ → ℚ
  | [] => 0
  | x :: xs => xs.foldl max x

/-- The square of `calculate_std_dev` (ML.py lines 1864–1879): the population
variance, 0 for fewer than two values.  The source computes
`variance ** 0.5`; since the only uses compare that square root against
nonnegative thresholds, the model carries the variance and the comparisons
below are squared accordingly (for `a, b ≥ 0`, `a > b ↔ a² > b²`). -/
def calculate_std_dev_sq (values : List ℚ) : ℚ :=
  if values.length < 2 then 0
  else
    let mean := values.sum / values.length
    (values.map fun x => (x - mean) ^ 2).sum / values.length

/-- Price statistics over the listings with positive price. -/
structure PriceMetrics where
  avg_price : ℚ
  min_price : ℚ
  max_price : ℚ
  price_range : ℚ
  price_std_dev_sq : ℚ
  deriving DecidableEq, Repr

/-- Sales statistics over the listings with positive sold count. -/
structure SalesMetrics where
  avg_sold : ℚ
  min_sold : ℚ
  max_sold : ℚ
  total_competitors : ℕ
  deriving DecidableEq, Repr

/-- The aggregated market metrics. -/
structure MarketMetrics where
  price : PriceMetrics
  sales : SalesMetrics
  price_variation : String
  demand_level : String
  deriving DecidableEq, Repr

/-- `calculate_market_metrics` (ML.py lines 1811–1862).  `price_variation`
compares the variance against the squared thresholds `(avg·0.2)²` and
`(avg·0.1)²`, faithful to the source's `std_dev > avg*0.2` / `> avg*0.1`
because both sides of those comparisons are nonnegative. -/
def calculate_market_metrics (market_data : List Listing) : MarketMetrics :=
  let prices := (market_data.filter fun p => 0 < p.price).map (·.price)
  let price_metrics : PriceMetrics :=
    ⟨listAvg prices, listMin prices, listMax prices,
      if prices.isEmpty then 0 else listMax prices - listMin prices,
      calculate_std_dev_sq prices⟩
  let sold_counts :=
    (market_data.filter fun p => 0 < p.sold_count).map (·.sold_count)
  let sales_metrics : SalesMetrics :=
    ⟨listAvg sold_counts, listMin sold_counts, listMax sold_counts,
      market_data.length⟩
  let price_variation :=
    if price_metrics.price_std_dev_sq >
        (price_metrics.avg_price * (2 / 10)) ^ 2 then "Alta"
    else if price_metrics.price_std_dev_sq >
        (price_metrics.avg_price * (1 / 10)) ^ 2 then "Média"
    else "Baixa"
  let demand_level :=
    if sales_metrics.avg_sold ≥ 500 then "Alta"
    else if sales_metrics.avg_sold ≥ 100 then "Média"
    else "Baixa"
  ⟨price_metrics, sales_metrics, price_variation, demand_level⟩

/-- The aggregated seller metrics. -/
structure SellerMetrics where
  high_level_percent : ℚ
  avg_rating : ℚ
  avg_sales : ℚ
  competition_level : String
  deriving DecidableEq, Repr

/-- The high-tier markers of `calculate_seller_metrics` (ML.py line 1903),
matched case-insensitively against the seller level. -/
def highTierMarkers : List (List Char) :=
  ["líder".data, "platinum".data, "gold".data, "excelente".data]

/-- `calculate_seller_metrics` (ML.py lines 1881–1934). -/
def calculate_seller_metrics (seller_data : List Seller) : SellerMetrics :=
  if seller_data.isEmpty then ⟨0, 0, 0, "Desconhecido"⟩
  else
    let high_level_count := (seller_data.filter fun s =>
      highTierMarkers.any fun m => containsSub m (lowerL s.seller_level)).length
    let high_level_percent :=
      ((high_level_count : ℚ) / seller_data.length) * 100
    let ratings := (seller_data.filter fun s => 0 < s.rating).map (·.rating)
    let avg_rating := listAvg ratings
    let sales := (seller_data.filter fun s => 0 < s.sales).map (·.sales)
    let avg_sales := listAvg sales
    let competition_level :=
      if high_level_percent ≥ 70 then "Alto"
      else if high_level_percent ≥ 40 then "Médio"
      else "Baixo"
    let competition_level :=
      if avg_rating ≥ 47 / 10 ∧ competition_level = "Médio" then "Alto"
      else competition_level
    ⟨high_level_percent, avg_rating, avg_sales, competition_level⟩

/-- Fee metrics derived from a fee breakdown. -/
structure FeeMetrics where
  margin : ℚ
  fee_percentage : ℚ
  net_revenue_ratio : ℚ
  profitability : String
  deriving DecidableEq, Repr

/-- `process_fee_metrics` (ML.py lines 1936–1983): an absent or empty fee
dictionary yields the default metrics with margin 84. -/
def process_fee_metrics (fees_data : Option FeeBreakdown) : FeeMetrics :=
  match fees_data with
  | none => ⟨84, 16, 84 / 100, "Desconhecido"⟩
  | some f =>
    let margin := f.margin
    let fee_percentage := if 0 < f.price then (f.fee / f.price) * 100 else 16
    let net_revenue_ratio := 1 - fee_percentage / 100
    let profitability :=
      if margin ≥ 85 then "Alta"
      else if margin ≥ 80 then "Boa"
      else if margin ≥ 75 then "Média"
      else if margin ≥ 70 then "Baixa"
      else "Muito baixa"
    ⟨margin, fee_percentage, net_revenue_ratio, profitability⟩

/-! ## Scoring Engine (`get_default_analysis`, `fallback_analysis`,
`fallback_analysis_enhanced`, recommendation validation,
ML.py lines 2066–2608) -/

/-- The `price_analysis` sub-dictionary. -/
structure PriceAnalysis where
  score : ℚ
  average_price : ℚ
  average_margin : ℚ
  details : String
  deriving DecidableEq, Repr

/-- The `competition_analysis` sub-dictionary. -/
structure CompetitionAnalysis where
  score : ℚ
  high_level_sellers : ℚ
  details : String
  deriving DecidableEq, Repr

/-- The `demand_analysis` sub-dictionary. -/
structure DemandAnalysis where
  score : ℚ
  average_sold : ℚ
  details : String
  deriving DecidableEq, Repr

/-- A product analysis (the `improvement_suggestions` and `trends` entries,
which no verified property consumes, are omitted). -/
structure Analysis where
  price_analysis : PriceAnalysis
  competition_analysis : CompetitionAnalysis
  demand_analysis : DemandAnalysis
  overall_score : ℚ
  recommendation : String
  deriving DecidableEq, Repr

/-- The four canonical recommendation labels
(`valid_recommendations`, ML.py line 2192). -/
def canonicalLabels : List String :=
  ["Altamente recomendado", "Recomendado", "Neutro", "Não recomendado"]

/-- The recommendation threshold chain shared by `fallback_analysis`
(lines 2423–2430), `fallback_analysis_enhanced` (lines 2534–2541) and the
correction step of `parse_and_validate_ai_response` (lines 2196–2204). -/
def recFromScore (score : ℚ) : String :=
  if score ≥ 7 then "Altamente recomendado"
  else if score ≥ 5 then "Recomendado"
  else if score ≥ 3 then "Neutro"
  else "Não recomendado"

/-- `get_default_analysis` (ML.py lines 2300–2326), returned by
`parse_ai_response` when the AI response is missing or unusable. -/
def get_default_analysis : Analysis :=
  ⟨⟨5, 0, 0, "Informações de preço não disponíveis"⟩,
   ⟨5, 0, "Informações de concorrência não disponíveis"⟩,
   ⟨5, 0, "Informações de demanda não disponíveis"⟩,
   5, "Neutro (análise indisponível)"⟩

/-- The recommendation-repair step of `parse_and_validate_ai_response`
(ML.py lines 2191–2204): an off-list label is recomputed from the overall
score instead of rejecting the response. -/
def validateRecommendation (overall_score : ℚ) (recommendation : String) :
    String :=
  if recommendation ∈ canonicalLabels then recommendation
  else recFromScore overall_score

/-- The high-tier markers of `fallback_analysis` (ML.py line 2375), matched
case-sensitively. -/
def fallbackHighMarkers : List (List Char) :=
  ["Líder".data, "Platinum".data, "Gold".data]

/-- The price-score threshold chain on the margin, shared verbatim by
`fallback_analysis` (lines 2353–2367) and `fallback_analysis_enhanced`
(lines 2476–2490). -/
def marginScore (margin : ℚ) : ℚ :=
  if margin ≥ 85 then 10 else if margin ≥ 80 then 8
  else if margin ≥ 75 then 6 else if margin ≥ 70 then 4 else 2

/-- The competition-score threshold chain on the high-tier-seller percent
(lines 2382–2396 and 2495–2509). -/
def competitionScore (level : ℚ) : ℚ :=
  if level ≤ 20 then 10 else if level ≤ 40 then 8
  else if level ≤ 60 then 6 else if level ≤ 80 then 4 else 2

/-- The demand-score threshold chain on the average sold count
(lines 2403–2417 and 2514–2528). -/
def demandScore (avg_sold : ℚ) : ℚ :=
  if avg_sold ≥ 1000 then 10 else if avg_sold ≥ 500 then 8
  else if avg_sold ≥ 200 then 6 else if avg_sold ≥ 50 then 4 else 2

/-- `fallback_analysis` (ML.py lines 2328–2451). -/
def fallback_analysis (market_data : List Listing) (seller_data : List Seller)
    (fees_data : Option FeeBreakdown) : Analysis :=
  let prices := (market_data.filter fun p => 0 < p.price).map (·.price)
  let avg_price := listAvg prices
  let margin : ℚ := match fees_data with
    | some f => f.margin
    | none => 84
  let price_score := marginScore margin
  let price_details :=
    if margin ≥ 85 then "Excelente margem" else if margin ≥ 80 then "Boa margem"
    else if margin ≥ 75 then "Margem razoável"
    else if margin ≥ 70 then "Margem baixa" else "Margem muito baixa"
  let competition_level : ℚ :=
    if seller_data.isEmpty then 0
    else
      ((seller_data.filter fun s =>
          fallbackHighMarkers.any fun m =>
            containsSub m s.seller_level).length / (seller_data.length : ℚ))
        * 100
  let competition_score := competitionScore competition_level
  let competition_details :=
    if competition_level ≤ 20 then "Concorrência muito baixa"
    else if competition_level ≤ 40 then "Concorrência baixa"
    else if competition_level ≤ 60 then "Concorrência moderada"
    else if competition_level ≤ 80 then "Concorrência alta"
    else "Concorrência muito alta"
  let sold_counts :=
    (market_data.filter fun p => 0 < p.sold_count).map (·.sold_count)
  let avg_sold := listAvg sold_counts
  let demand_score := demandScore avg_sold
  let demand_details :=
    if avg_sold ≥ 1000 then "Demanda extremamente alta"
    else if avg_sold ≥ 500 then "Demanda alta"
    else if avg_sold ≥ 200 then "Demanda moderada"
    else if avg_sold ≥ 50 then "Demanda baixa" else "Demanda muito baixa"
  let overall_score :=
    price_score * (3 / 10) + competition_score * (3 / 10) +
      demand_score * (4 / 10)
  ⟨⟨price_score, avg_price, margin, price_details⟩,
   ⟨competition_score, competition_level, competition_details⟩,
   ⟨demand_score, avg_sold, demand_details⟩,
   overall_score, recFromScore overall_score⟩

/-- `fallback_analysis_enhanced` (ML.py lines 2453–2608).  The
`extract_product_info` call and the `improvement_suggestions`/`trends`
entries do not feed any field kept here and are omitted. -/
def fallback_analysis_enhanced (market_data : List Listing)
    (seller_data : List Seller) (fees_data : Option FeeBreakdown) : Analysis :=
  let market_metrics := calculate_market_metrics market_data
  let seller_metrics := calculate_seller_metrics seller_data
  let fee_metrics := process_fee_metrics fees_data
  let margin := fee_metrics.margin
  let price_score := marginScore margin
  let price_details :=
    if margin ≥ 85 then "Excelente margem, muito acima da média do mercado."
    else if margin ≥ 80 then "Boa margem, acima da média do mercado."
    else if margin ≥ 75 then "Margem razoável, na média do mercado."
    else if margin ≥ 70 then "Margem baixa, abaixo da média do mercado."
    else "Margem muito baixa, significativamente abaixo do mercado."
  let competition_level := seller_metrics.high_level_percent
  let competition_score := competitionScore competition_level
  let competition_details :=
    if competition_level ≤ 20 then
      "Concorrência muito baixa, com poucos vendedores estabelecidos."
    else if competition_level ≤ 40 then
      "Concorrência baixa, bom cenário para novos vendedores."
    else if competition_level ≤ 60 then
      "Concorrência moderada, típica de produtos estabelecidos."
    else if competition_level ≤ 80 then
      "Concorrência alta, dominada por vendedores experientes."
    else "Concorrência muito alta, mercado saturado com vendedores de elite."
  let avg_sold := market_metrics.sales.avg_sold
  let demand_score := demandScore avg_sold
  let demand_details :=
    if avg_sold ≥ 1000 then
      "Demanda extremamente alta, produto muito procurado no mercado."
    else if avg_sold ≥ 500 then
      "Demanda alta, produto com bom volume de vendas."
    else if avg_sold ≥ 200 then "Demanda moderada, volume de vendas médio."
    else if avg_sold ≥ 50 then "Demanda baixa, poucas vendas registradas."
    else "Demanda muito baixa, produto com pouquíssimas vendas."
  let overall_score :=
    price_score * (3 / 10) + competition_score * (3 / 10) +
      demand_score * (4 / 10)
  ⟨⟨price_score, market_metrics.price.avg_price, margin, price_details⟩,
   ⟨competition_score, competition_level, competition_details⟩,
   ⟨demand_score, avg_sold, demand_details⟩,
   overall_score, recFromScore overall_score⟩

/-! ## Kit Composer (`classify_product_type`, `categorize_products`,
`create_kit_from_products`, `parse_kit_recommendations_enhanced`,
`enrich_kits`, `generate_hybrid_kits`, `generate_smart_kits`,
ML.py lines 1781–1809 and 2896–3514) -/

/-- The slice of a scored product analysis consumed by the kit composer:
`product_name`, `found`, `overall_score`, `price_analysis.average_price`,
`demand_analysis.average_sold`. -/
structure PAnalysis where
  product_name : String
  found : Bool
  overall_score : ℚ
  average_price : ℚ
  average_sold : ℚ
  deriving DecidableEq, Repr

/-- Default element for guarded index lookups. -/
def paDefault : PAnalysis := ⟨"", true, 0, 0, 0⟩

/-- A product kit. -/
structure Kit where
  kit_name : String
  target_audience : String
  products : List String
  individual_prices : List ℚ
  total_price : ℚ
  kit_price : ℚ
  discount : ℚ
  average_score : ℚ
  reasoning : String
  marketing_pitch : String
  deriving DecidableEq, Repr

/-- The category-keyword dictionary shared by `classify_product_type`
(ML.py lines 1794–1803) and `categorize_products` (lines 2965–2974). -/
def categoryKeywords : List (String × List (List Char)) :=
  [("Eletrônicos",
    ["celular".data, "smartphone".data, "tv".data, "televisão".data,
     "monitor".data, "tablet".data, "notebook".data, "laptop".data,
     "fone".data, "headphone".data]),
   ("Informática",
    ["computador".data, "pc".data, "teclado".data, "mouse".data,
     "impressora".data, "scanner".data, "webcam".data, "hd".data,
     "ssd".data, "pendrive".data]),
   ("Móveis",
    ["mesa".data, "cadeira".data, "sofá".data, "poltrona".data,
     "armário".data, "estante".data, "cama".data, "guarda-roupa".data,
     "criado-mudo".data]),
   ("Eletrodomésticos",
    ["geladeira".data, "fogão".data, "microondas".data,
     "liquidificador".data, "batedeira".data, "cafeteira".data,
     "aspirador".data]),
   ("Ferramentas",
    ["martelo".data, "chave".data, "parafusadeira".data, "furadeira".data,
     "alicate".data, "serra".data, "esmerilhadeira".data]),
   ("Decoração",
    ["tapete".data, "cortina".data, "quadro".data, "luminária".data,
     "espelho".data, "vaso".data, "almofada".data]),
   ("Vestuário",
    ["camisa".data, "camiseta".data, "calça".data, "vestido".data,
     "bermuda".data, "jaqueta".data, "casaco".data, "sapato".data,
     "tênis".data]),
   ("Brinquedos",
    ["boneca".data, "carrinho".data, "jogo".data, "puzzle".data,
     "quebra-cabeça".data, "lego".data, "nerf".data])]

/-- `classify_product_type` (ML.py lines 1781–1809): the first category one
of whose keywords occurs in the lowered product name, else `"Diversos"`. -/
def classify_product_type (product_name : String) : String :=
  let nl := lowerL product_name.data
  match categoryKeywords.find? (fun e =>
      e.2.any fun kw => containsSub kw nl) with
  | some e => e.1
  | none => "Diversos"

/-- Append `p` under `key` in an insertion-ordered dictionary. -/
def dictAppend (d : List (String × List PAnalysis)) (key : String)
    (p : PAnalysis) : List (String × List PAnalysis) :=
  match d with
  | [] => [(key, [p])]
  | (k, ps) :: rest =>
    if k = key then (k, ps ++ [p]) :: rest
    else (k, ps) :: dictAppend rest key p

/-- `categorize_products` (ML.py lines 2945–2991): group by the first
matching category (same dictionary and order as `classify_product_type`),
preserving insertion order. -/
def categorize_products (products : List PAnalysis) :
    List (String × List PAnalysis) :=
  products.foldl (fun d p => dictAppend d (classify_product_type p.product_name) p) []

/-- Stable sort by `overall_score` descending
(`sorted(..., key=score, reverse=True)`). -/
def sortDescByScore (ps : List PAnalysis) : List PAnalysis :=
  ps.mergeSort fun x y => decide (y.overall_score ≤ x.overall_score)

/-- Stable sort by `average_price` ascending. -/
def sortAscByPrice (ps : List PAnalysis) : List PAnalysis :=
  ps.mergeSort fun x y => decide (x.average_price ≤ y.average_price)

/-- Stable sort by `average_sold` descending. -/
def sortDescBySold (ps : List PAnalysis) : List PAnalysis :=
  ps.mergeSort fun x y => decide (y.average_sold ≤ x.average_sold)

/-- The per-category top lists built in `generate_smart_kits`
(ML.py lines 2923–2927): the five best-scored members of each category. -/
def topByCategory (categorized : List (String × List PAnalysis)) :
    List (String × List PAnalysis) :=
  categorized.map fun e => (e.1, (sortDescByScore e.2).take 5)

/-- Dictionary lookup (`cat in top_by_category` / `top_by_category[cat]`). -/
def lookupCat (d : List (String × List PAnalysis)) (key : String) :
    Option (List PAnalysis) :=
  (d.find? fun e => e.1 == key).map (·.2)

/-- `create_kit_from_products` (ML.py lines 3408–3465).  Note that the name
list keeps only truthy (non-empty) product names while the price list keeps
an entry for every product. -/
def create_kit_from_products (products : List PAnalysis)
    (name audience pitch reasoning : String) : Kit :=
  let product_names := (products.map (·.product_name)).filter (· ≠ "")
  let individual_prices := products.map (·.average_price)
  let total_price := individual_prices.sum
  let discount : ℚ :=
    if total_price > 1000 then 10 else if total_price > 500 then 8 else 5
  let kit_price := total_price * (1 - discount / 100)
  let avg_score :=
    if products.isEmpty then 0
    else (products.map (·.overall_score)).sum / products.length
  ⟨name, audience, product_names, individual_prices, total_price, kit_price,
   discount, avg_score, reasoning, pitch⟩

/-- A decoded JSON kit entry of an AI response, as consumed by
`parse_kit_recommendations_enhanced` (absent keys are `none`; product ids
are modelled as integers, which is the shape the prompt requests). -/
structure KitEntryData where
  kit_name : Option String
  target_audience : Option String
  products : List ℤ
  individual_prices : Option (List ℚ)
  total_price : Option ℚ
  kit_price : Option ℚ
  discount : Option ℚ
  average_score : Option ℚ
  reasoning : Option String
  marketing_pitch : Option String
  deriving Repr

/-- Python number rendering used only inside generated marketing strings
(no verified property inspects them). -/
def pyNumStr (q : ℚ) : String :=
  if q.den = 1 then toString q.num else toString q.num ++ "/" ++ toString q.den

/-- The per-entry body of the parse loop of
`parse_kit_recommendations_enhanced` (ML.py lines 3163–3225); `idx` is
`len(processed_kits)`.  `none` models the `continue` on an empty id list. -/
def processKitEntry (avail : List PAnalysis) (idx : Nat)
    (d : KitEntryData) : Option Kit :=
  if d.products.isEmpty then none
  else
    let inRange := fun pid : ℤ => 1 ≤ pid ∧ pid ≤ avail.length
    let product_names := d.products.map fun pid =>
      if inRange pid then (avail.getD (pid - 1).toNat paDefault).product_name
      else "Produto " ++ toString pid
    let individual_prices :=
      match d.individual_prices with
      | some l =>
        if ¬ l.isEmpty ∧ l.length = d.products.length then l
        else d.products.map fun pid =>
          if inRange pid then (avail.getD (pid - 1).toNat paDefault).average_price
          else 0
      | none => d.products.map fun pid =>
          if inRange pid then (avail.getD (pid - 1).toNat paDefault).average_price
          else 0
    let total_price := d.total_price.getD individual_prices.sum
    let discount := d.discount.getD 5
    let kit_price := d.kit_price.getD (total_price * (1 - discount / 100))
    let scores := (d.products.filter fun pid => decide (inRange pid)).map
      fun pid => (avail.getD (pid - 1).toNat paDefault).overall_score
    let avg_score := d.average_score.getD
      (if scores.isEmpty then 0 else scores.sum / scores.length)
    some
      ⟨d.kit_name.getD ("Kit Premium " ++ toString (idx + 1)),
       d.target_audience.getD "Clientes gerais",
       product_names, individual_prices, total_price, kit_price, discount,
       avg_score,
       d.reasoning.getD "Kit com produtos complementares",
       d.marketing_pitch.getD
         ("Kit completo com " ++ toString product_names.length ++
          " produtos essenciais com " ++ pyNumStr discount ++
          "% de desconto!")⟩

/-- The accumulation loop of `parse_kit_recommendations_enhanced`. -/
def parseKitsGo (avail : List PAnalysis) :
    List KitEntryData → List Kit → List Kit
  | [], acc => acc
  | d :: rest, acc =>
    match processKitEntry avail acc.length d with
    | some kit => parseKitsGo avail rest (acc ++ [kit])
    | none => parseKitsGo avail rest acc

/-- `parse_kit_recommendations_enhanced` (ML.py lines 3100–3233) applied to
an already-decoded response payload (the JSON text repair and decoding are
outside the model; a response that fails to decode yields `[]` upstream). -/
def parse_kit_recommendations_enhanced (entries : List KitEntryData)
    (products : List PAnalysis) : List Kit :=
  parseKitsGo products entries []

/-- Python `round` (banker's rounding: ties go to the even neighbour). -/
def pyRound (q : ℚ) : ℤ :=
  let f := ⌊q⌋
  let r := q - f
  if r < 1 / 2 then f
  else if r > 1 / 2 then f + 1
  else if f % 2 = 0 then f else f + 1

/-- The distinct non-`"Diversos"` product types of a kit's product names,
in order of first occurrence (`enrich_kits`, ML.py lines 3492–3496). -/
def productTypesOf (names : List String) : List String :=
  names.foldl
    (fun types n =>
      let t := classify_product_type n
      if t ≠ "Diversos" ∧ t ∉ types then types ++ [t] else types)
    []

/-- The enrichment of one kit (`enrich_kits`, ML.py lines 3467–3514):
name beefed up from product types when short, discount snapped to a
multiple of 5 and clamped to `[5, 15]`, kit price recomputed. -/
def enrichKit (k : Kit) : Kit :=
  let kit_name :=
    if k.kit_name.length < 10 then
      let types := productTypesOf k.products
      if ¬ types.isEmpty then
        "Kit " ++ String.intercalate " & " (types.take 2) ++ " " ++ k.kit_name
      else k.kit_name
    else k.kit_name
  let discount : ℚ := (pyRound (k.discount / 5) * 5 : ℤ)
  let discount := if discount < 5 then 5 else if discount > 15 then 15
    else discount
  { k with
    kit_name := kit_name
    discount := discount
    kit_price := k.total_price * (1 - discount / 100) }

/-- `enrich_kits` over a kit list. -/
def enrich_kits (kits : List Kit) : List Kit := kits.map enrichKit

/-- `generate_kits_with_ai` (ML.py lines 2993–3098) given the decoded
response payload: parse against the twenty best-scored products. -/
def generate_kits_with_ai (products : List PAnalysis)
    (entries : List KitEntryData) : List Kit :=
  parse_kit_recommendations_enhanced entries ((sortDescByScore products).take 20)

/-- Python `l[-n:]` (whole list when `n = 0`). -/
def pySliceLastN (n : Nat) (l : List PAnalysis) : List PAnalysis :=
  if n = 0 then l else l.drop (l.length - n)

/-- Step 1 of `generate_hybrid_kits` (ML.py lines 3252–3270): one kit per
category holding at least `kit_size` products, while below `max_kits`. -/
def hybridStep1 (max_kits kit_size : Nat) :
    List (String × List PAnalysis) → List Kit → List Kit
  | [], acc => acc
  | (category, cat_products) :: rest, acc =>
    if kit_size ≤ cat_products.length ∧ acc.length < max_kits then
      let kit_products := (sortDescByScore cat_products).take kit_size
      let kit := create_kit_from_products kit_products
        ("Kit " ++ category ++ " Premium")
        ("Clientes interessados em " ++ category)
        ("Kit completo com " ++ toString kit_size ++
         " produtos essenciais de " ++ category)
        "Kit composto pelos melhores produtos da categoria"
      hybridStep1 max_kits kit_size rest (acc ++ [kit])
    else hybridStep1 max_kits kit_size rest acc

/-- The complementary category pairs (ML.py lines 3274–3278). -/
def categoryPairs : List (String × String) :=
  [("Eletrônicos", "Informática"), ("Móveis", "Decoração"),
   ("Ferramentas", "Eletrodomésticos")]

/-- Step 2 of `generate_hybrid_kits` (ML.py lines 3272–3313): one mixed kit
per complementary category pair present in the per-category top lists. -/
def hybridStep2 (max_kits kit_size : Nat)
    (top_by : List (String × List PAnalysis)) :
    List (String × String) → List Kit → List Kit
  | [], acc => acc
  | (cat1, cat2) :: rest, acc =>
    if max_kits ≤ acc.length then acc
    else
      let acc :=
        match lookupCat top_by cat1, lookupCat top_by cat2 with
        | some products1, some products2 =>
          if 1 ≤ products1.length ∧ 1 ≤ products2.length then
            let cat1_count := min products1.length (kit_size / 2 + kit_size % 2)
            let cat2_count := min products2.length (kit_size - cat1_count)
            let cat1_count :=
              if cat1_count + cat2_count < kit_size ∧
                  cat1_count < products1.length then
                min products1.length (kit_size - cat2_count)
              else cat1_count
            let kit_products := products1.take cat1_count ++
              products2.take cat2_count
            if kit_products.length = kit_size then
              acc ++ [create_kit_from_products kit_products
                ("Kit " ++ cat1 ++ " & " ++ cat2)
                ("Clientes interessados em " ++ cat1 ++ " e " ++ cat2)
                ("Combinação perfeita de produtos de " ++ cat1 ++ " e " ++
                 cat2 ++ " com desconto especial")
                ("Kit misto que combina o melhor de " ++ cat1 ++ " e " ++
                 cat2)]
            else acc
          else acc
        | _, _ => acc
      hybridStep2 max_kits kit_size top_by rest acc

/-- One guarded append of the hybrid generator: a kit is added only while
the count is below `max_kits` (the `if kit_count < max_kits` guards). -/
def guardAppend (max_kits : Nat) (acc : List Kit) (kit : Kit) : List Kit :=
  if acc.length < max_kits then acc ++ [kit] else acc

/-- Step 3 of `generate_hybrid_kits` (ML.py lines 3315–3363): beginner,
mid-tier and premium kits by price when at least `3·kit_size` products
exist. -/
def hybridStep3 (max_kits kit_size : Nat) (products : List PAnalysis)
    (acc : List Kit) : List Kit :=
  if acc.length < max_kits ∧ kit_size * 3 ≤ products.length then
    let sorted_by_price := sortAscByPrice products
    if kit_size * 3 ≤ sorted_by_price.length then
      let kitIniciante := create_kit_from_products
        (sorted_by_price.take kit_size)
        "Kit Iniciante" "Clientes iniciantes com orçamento limitado"
        "Kit perfeito para quem está começando, com ótimo custo-benefício"
        "Kit econômico com produtos essenciais para iniciantes"
      let mid_start := sorted_by_price.length / 3
      let kitIntermediario := create_kit_from_products
        ((sorted_by_price.drop mid_start).take kit_size)
        "Kit Intermediário" "Clientes com experiência média"
        "Solução completa com ótimo equilíbrio entre custo e desempenho"
        "Kit com produtos de qualidade intermediária, excelente custo-benefício"
      let kitPremium := create_kit_from_products
        (pySliceLastN kit_size sorted_by_price)
        "Kit Premium" "Clientes exigentes que buscam o melhor"
        "O melhor conjunto de produtos premium com desconto exclusivo"
        "Kit com produtos top de linha para quem busca excelência"
      guardAppend max_kits
        (guardAppend max_kits (guardAppend max_kits acc kitIniciante)
          kitIntermediario)
        kitPremium
    else acc
  else acc

/-- Step 4 of `generate_hybrid_kits` (ML.py lines 3365–3384): the
best-sellers kit. -/
def hybridStep4 (max_kits kit_size : Nat) (products : List PAnalysis)
    (acc : List Kit) : List Kit :=
  if acc.length < max_kits then
    let sorted_by_sales := sortDescBySold products
    if kit_size ≤ sorted_by_sales.length then
      acc ++ [create_kit_from_products (sorted_by_sales.take kit_size)
        "Kit Mais Vendidos" "Todos os clientes"
        "Os produtos mais vendidos e bem avaliados com desconto especial"
        "Kit com os produtos mais populares e bem-sucedidos do mercado"]
    else acc
  else acc

/-- Step 5 of `generate_hybrid_kits` (ML.py lines 3386–3404): fill with
randomly sampled kits until `max_kits`; `rand` is the sampling oracle
standing for `random.sample(products, kit_size)` at each iteration.
`fuel` starts at `max_kits`, bounding the `while kit_count < max_kits`
loop whose count grows by one per iteration. -/
def hybridStep5 (max_kits kit_size : Nat) (products : List PAnalysis)
    (rand : Nat → List PAnalysis) : Nat → List Kit → List Kit
  | 0, acc => acc
  | fuel + 1, acc =>
    if acc.length < max_kits then
      if kit_size ≤ products.length then
        hybridStep5 max_kits kit_size products rand fuel
          (acc ++ [create_kit_from_products (rand acc.length)
            ("Kit Especial " ++ toString (acc.length + 1))
            "Clientes diversos"
            "Combinação especial de produtos com desconto exclusivo"
            "Kit variado com produtos de diferentes categorias"])
      else acc
    else acc

/-- `generate_hybrid_kits` (ML.py lines 3235–3406). -/
def generate_hybrid_kits (products : List PAnalysis)
    (categorized : List (String × List PAnalysis))
    (top_by : List (String × List PAnalysis)) (max_kits kit_size : Nat)
    (rand : Nat → List PAnalysis) : List Kit :=
  hybridStep5 max_kits kit_size products rand max_kits
    (hybridStep4 max_kits kit_size products
      (hybridStep3 max_kits kit_size products
        (hybridStep2 max_kits kit_size top_by categoryPairs
          (hybridStep1 max_kits kit_size categorized []))))

/-- `generate_smart_kits` (ML.py lines 2896–2943).  `aiEntries` is the
decoded payload of the AI collaborator's response (`none` models a request
or decode failure raising inside the `try`); `rand` is the sampling oracle
of the random fill step. -/
def generate_smart_kits (product_analyses : List PAnalysis)
    (max_kits kit_size : Nat) (use_ai api_key : Bool)
    (aiEntries : Option (List KitEntryData)) (rand : Nat → List PAnalysis) :
    List Kit :=
  let valid_products := product_analyses.filter (·.found)
  if valid_products.length < kit_size then []
  else
    let categorized := categorize_products valid_products
    let top_by := topByCategory categorized
    let hybrid := fun (_ : Unit) =>
      generate_hybrid_kits valid_products categorized top_by max_kits
        kit_size rand
    if use_ai ∧ api_key then
      match aiEntries with
      | none => hybrid ()
      | some entries =>
        let ai_kits := generate_kits_with_ai valid_products entries
        if ¬ ai_kits.isEmpty then
          let enriched_kits := enrich_kits ai_kits
          if max_kits / 2 ≤ enriched_kits.length then enriched_kits
          else hybrid ()
        else hybrid ()
    else hybrid ()

/-! ## Theorems settling the claims -/

/-- The five values a rule-based sub-score can take. -/
def scoreSet : List ℚ := [2, 4, 6, 8, 10]

lemma marginScore_mem (m : ℚ) : marginScore m ∈ scoreSet := by
  unfold marginScore scoreSet; split_ifs <;> simp

lemma competitionScore_mem (l : ℚ) : competitionScore l ∈ scoreSet := by
  unfold competitionScore scoreSet; split_ifs <;> simp

lemma demandScore_mem (a : ℚ) : demandScore a ∈ scoreSet := by
  unfold demandScore scoreSet; split_ifs <;> simp

lemma scoreSet_bounds {s : ℚ} (h : s ∈ scoreSet) : 2 ≤ s ∧ s ≤ 10 := by
  fin_cases h <;> norm_num

/-- The score-related observables of one analysis, as the spec states them. -/
def scoreSpecHolds (a : Analysis) : Prop :=
  a.price_analysis.score ∈ scoreSet ∧
  a.competition_analysis.score ∈ scoreSet ∧
  a.demand_analysis.score ∈ scoreSet ∧
  a.overall_score =
    a.price_analysis.score * (3 / 10) + a.competition_analysis.score * (3 / 10)
      + a.demand_analysis.score * (4 / 10) ∧
  0 ≤ a.overall_score ∧ a.overall_score ≤ 10

lemma overall_bounds {p c d : ℚ} (hp : p ∈ scoreSet) (hc : c ∈ scoreSet)
    (hd : d ∈ scoreSet) :
    0 ≤ p * (3 / 10) + c * (3 / 10) + d * (4 / 10) ∧
      p * (3 / 10) + c * (3 / 10) + d * (4 / 10) ≤ 10 := by
  obtain ⟨hp1, hp2⟩ := scoreSet_bounds hp
  obtain ⟨hc1, hc2⟩ := scoreSet_bounds hc
  obtain ⟨hd1, hd2⟩ := scoreSet_bounds hd
  constructor <;> nlinarith

lemma scoreSpecHolds_build (p c d : ℚ) (hp : p ∈ scoreSet) (hc : c ∈ scoreSet)
    (hd : d ∈ scoreSet) (pa : ℚ) (pm : ℚ) (pd : String) (cl : ℚ) (cd : String)
    (as' : ℚ) (dd : String) (rec : String) :
    scoreSpecHolds
      ⟨⟨p, pa, pm, pd⟩, ⟨c, cl, cd⟩, ⟨d, as', dd⟩,
        p * (3 / 10) + c * (3 / 10) + d * (4 / 10), rec⟩ := by
  refine ⟨hp, hc, hd, rfl, ?_, ?_⟩
  · exact (overall_bounds hp hc hd).1
  · exact (overall_bounds hp hc hd).2

/-- Claim C2: every rule-based (fallback) analysis — from `fallback_analysis`
or `fallback_analysis_enhanced`, for all metric inputs including the
missing-fee default path — has each sub-score in {2,4,6,8,10} as given by the
fixed threshold chains, `overall_score` exactly equal to
`0.3·price_score + 0.3·competition_score + 0.4·demand_score`, and
`0 ≤ overall_score ≤ 10`. -/
theorem fallback_scores_weighted_and_bounded :
    ∀ (market_data : List Listing) (seller_data : List Seller)
      (fees_data : Option FeeBreakdown),
      scoreSpecHolds (fallback_analysis market_data seller_data fees_data) ∧
      scoreSpecHolds
        (fallback_analysis_enhanced market_data seller_data fees_data) := by
  intro m s f
  constructor
  · exact scoreSpecHolds_build _ _ _ (marginScore_mem _)
      (competitionScore_mem _) (demandScore_mem _) _ _ _ _ _ _ _ _
  · exact scoreSpecHolds_build _ _ _ (marginScore_mem _)
      (competitionScore_mem _) (demandScore_mem _) _ _ _ _ _ _ _ _

lemma recFromScore_mem (q : ℚ) : recFromScore q ∈ canonicalLabels := by
  unfold recFromScore canonicalLabels; split_ifs <;> simp

/-- Counterexample to claim C4 as stated: the default analysis returned when
the AI response is unusable (`parse_ai_response` → `get_default_analysis`)
carries the recommendation `"Neutro (análise indisponível)"`, which is not
one of the four canonical labels. -/
theorem default_analysis_label_offlist :
    get_default_analysis.recommendation = "Neutro (análise indisponível)" ∧
      get_default_analysis.recommendation ∉ canonicalLabels := by
  constructor
  · rfl
  · decide

/-- Claim C4 amended: on the rule-based fallback paths and through the
validator's label-repair step of the AI path, the recommendation is always
one of the four canonical labels; only the degraded default analysis used
when the AI response is unusable carries the off-list label
`"Neutro (análise indisponível)"`. -/
theorem recommendation_labels_spec :
    (∀ (m : List Listing) (s : List Seller) (f : Option FeeBreakdown),
      (fallback_analysis m s f).recommendation ∈ canonicalLabels ∧
      (fallback_analysis_enhanced m s f).recommendation ∈ canonicalLabels) ∧
    (∀ (score : ℚ) (rec : String),
      validateRecommendation score rec ∈ canonicalLabels) := by
  constructor
  · intro m s f
    exact ⟨recFromScore_mem _, recFromScore_mem _⟩
  · intro score rec
    unfold validateRecommendation
    split_ifs with h
    · exact h
    · exact recFromScore_mem _

/-- Claim C10: when fee data is missing (`fees_data` empty or absent), the
rule-based scoring paths substitute the default margin 84, so the product
receives `price_score = 8` (the "good margin" band) rather than the minimum
score, in both `fallback_analysis` and `fallback_analysis_enhanced`. -/
theorem missing_fees_default_margin :
    (process_fee_metrics none).margin = 84 ∧
    (∀ (m : List Listing) (s : List Seller),
      (fallback_analysis m s none).price_analysis.score = 8 ∧
      (fallback_analysis m s none).price_analysis.average_margin = 84) ∧
    (∀ (m : List Listing) (s : List Seller),
      (fallback_analysis_enhanced m s none).price_analysis.score = 8 ∧
      (fallback_analysis_enhanced m s none).price_analysis.average_margin
        = 84) := by
  have h84 : marginScore 84 = 8 := by norm_num [marginScore]
  refine ⟨rfl, fun m s => ⟨?_, rfl⟩, fun m s => ⟨?_, rfl⟩⟩
  · show marginScore 84 = 8
    exact h84
  · show marginScore (process_fee_metrics none).margin = 8
    exact h84

/-- Claim C6: the improved noise check is a superset of the baseline — every
line `is_header_or_footer` classifies as noise,
`improved_is_header_or_footer` classifies as noise as well. -/
theorem improved_noise_superset (text : List Char)
    (h : is_header_or_footer text = true) :
    improved_is_header_or_footer text = true := by
  by_cases he : text.isEmpty = true
  · unfold improved_is_header_or_footer
    rw [if_pos he]
  · unfold is_header_or_footer at h
    rw [if_neg he] at h
    by_cases hl : text.length < 25
    · rw [if_pos hl] at h
      unfold improved_is_header_or_footer
      rw [if_neg he, Bool.or_eq_true, Bool.and_eq_true]
      left
      refine ⟨decide_eq_true hl, ?_⟩
      unfold improvedHeaderTerms
      rw [List.any_append, h, Bool.true_or]
    · rw [if_neg hl] at h
      exact absurd h (by simp)

/-- Witness for C6: the concrete line `"total"` is flagged by the baseline
check, and the theorem applies to it. -/
theorem improved_noise_superset_witness :
    is_header_or_footer "total".data = true ∧
      improved_is_header_or_footer "total".data = true :=
  ⟨by decide, improved_noise_superset "total".data (by decide)⟩

/-- Claim C7: the detailed fee computation returns the all-zero breakdown
(never raising) for any non-numeric price and any price `≤ 0`, and for price
100 with no category reports base fee percentage 16 with zero fixed fee
(100 is not below the low-price threshold 79) and zero antifraud fee
(100 does not exceed 120). -/
theorem fees_degenerate_and_base_spec :
    (∀ category, calculate_mercado_livre_fees_detailed .nonNum category
      = zeroFees) ∧
    (∀ (q : ℚ) category, q ≤ 0 →
      calculate_mercado_livre_fees_detailed (.num q) category = zeroFees) ∧
    (calculate_mercado_livre_fees_detailed (.num 100) none).details
      = some ⟨16, 16, 0, 0, 0⟩ := by
  refine ⟨fun _ => rfl, fun q category hq => ?_, ?_⟩
  · unfold calculate_mercado_livre_fees_detailed
    dsimp only
    rw [if_pos hq]
  · have hd : (calculate_mercado_livre_fees_detailed (.num 100) none).details
        = some (⟨baseFeeRate none * 100, 100 * baseFeeRate none,
            if (100:ℚ) < 79 then 5 else 0,
            if (100:ℚ) > 120 then 100 * (15/1000) else 0, 0⟩ : FeeDetails) :=
      rfl
    rw [hd]
    norm_num [baseFeeRate]

/-- Witness for C7: the zero-price branch applied at the concrete prices 0
and −5. -/
theorem fees_degenerate_spec_witness :
    calculate_mercado_livre_fees_detailed (.num 0) none = zeroFees ∧
      calculate_mercado_livre_fees_detailed (.num (-5)) none = zeroFees :=
  ⟨fees_degenerate_and_base_spec.2.1 0 none (by norm_num),
   fees_degenerate_and_base_spec.2.1 (-5) none (by norm_num)⟩

/-- The listings of end-to-end example 3:
prices [100,110,90,105,1000], sold counts [5,3,0,4,2]. -/
def exampleListings : List Listing :=
  [⟨100, 5⟩, ⟨110, 3⟩, ⟨90, 0⟩, ⟨105, 4⟩, ⟨1000, 2⟩]

/-- Claim C8: the market aggregator averages prices only over listings with
positive price and sold counts only over listings with positive sold count
(prepending a zero-price or zero-sold listing leaves the respective average
unchanged), classifies `price_variation` as `"Alta"` exactly when the
population standard deviation exceeds `0.2 ×` the mean price (stated on the
squares, both sides being nonnegative), and on the example listings with
prices [100,110,90,105,1000] and sold counts [5,3,0,4,2] yields
`avg_price = 281`, `avg_sold = 3.5` and `price_variation = "Alta"`. -/
theorem market_metrics_spec :
    ((calculate_market_metrics exampleListings).price.avg_price = 281 ∧
     (calculate_market_metrics exampleListings).sales.avg_sold = 7 / 2 ∧
     (calculate_market_metrics exampleListings).price_variation = "Alta") ∧
    (∀ (data : List Listing) (z : Listing), z.sold_count = 0 →
      (calculate_market_metrics (z :: data)).sales.avg_sold =
        (calculate_market_metrics data).sales.avg_sold) ∧
    (∀ (data : List Listing) (z : Listing), z.price = 0 →
      (calculate_market_metrics (z :: data)).price.avg_price =
        (calculate_market_metrics data).price.avg_price) ∧
    (∀ data : List Listing,
      (calculate_market_metrics data).price_variation = "Alta" ↔
        calculate_std_dev_sq
            ((data.filter fun p => 0 < p.price).map (·.price)) >
          ((calculate_market_metrics data).price.avg_price * (2 / 10)) ^ 2) := by
  have hfil : ((exampleListings.filter fun p => 0 < p.price).map (·.price))
      = [100, 110, 90, 105, 1000] := by decide
  have hsol :
      ((exampleListings.filter fun p => 0 < p.sold_count).map (·.sold_count))
      = [5, 3, 4, 2] := by decide
  refine ⟨⟨?_, ?_, ?_⟩, ?_, ?_, ?_⟩
  · show listAvg ((exampleListings.filter fun p => 0 < p.price).map (·.price))
      = 281
    rw [hfil]
    norm_num [listAvg]
  · show listAvg
      ((exampleListings.filter fun p => 0 < p.sold_count).map (·.sold_count))
      = 7 / 2
    rw [hsol]
    norm_num [listAvg]
  · have hv : (calculate_market_metrics exampleListings).price_variation =
        if calculate_std_dev_sq
            ((exampleListings.filter fun p => 0 < p.price).map (·.price)) >
          (listAvg ((exampleListings.filter fun p => 0 < p.price).map (·.price))
            * (2 / 10)) ^ 2 then "Alta"
        else if calculate_std_dev_sq
            ((exampleListings.filter fun p => 0 < p.price).map (·.price)) >
          (listAvg ((exampleListings.filter fun p => 0 < p.price).map (·.price))
            * (1 / 10)) ^ 2 then "Média"
        else "Baixa" := rfl
    rw [hv, hfil, if_pos]
    norm_num [calculate_std_dev_sq, listAvg]
  · intro data z hz
    have hf : ((z :: data).filter fun p => 0 < p.sold_count)
        = data.filter fun p => 0 < p.sold_count := by
      rw [List.filter_cons]
      simp [hz]
    show listAvg (((z :: data).filter fun p => 0 < p.sold_count).map
        (·.sold_count)) = listAvg ((data.filter fun p => 0 < p.sold_count).map
        (·.sold_count))
    rw [hf]
  · intro data z hz
    have hf : ((z :: data).filter fun p => 0 < p.price)
        = data.filter fun p => 0 < p.price := by
      rw [List.filter_cons]
      simp [hz]
    show listAvg (((z :: data).filter fun p => 0 < p.price).map (·.price))
      = listAvg ((data.filter fun p => 0 < p.price).map (·.price))
    rw [hf]
  · intro data
    have hv : (calculate_market_metrics data).price_variation =
        if calculate_std_dev_sq
            ((data.filter fun p => 0 < p.price).map (·.price)) >
          (listAvg ((data.filter fun p => 0 < p.price).map (·.price))
            * (2 / 10)) ^ 2 then "Alta"
        else if calculate_std_dev_sq
            ((data.filter fun p => 0 < p.price).map (·.price)) >
          (listAvg ((data.filter fun p => 0 < p.price).map (·.price))
            * (1 / 10)) ^ 2 then "Média"
        else "Baixa" := rfl
    have ha : (calculate_market_metrics data).price.avg_price =
        listAvg ((data.filter fun p => 0 < p.price).map (·.price)) := rfl
    rw [hv, ha]
    split_ifs with h1 h2
    · simp [h1]
    · simp [h1]
    · simp [h1]

/-- Witness for C8: the sold-count-exclusion clause applied to the example
listings extended by a zero-sold listing. -/
theorem market_metrics_spec_witness :
    (⟨0, 0⟩ : Listing).sold_count = 0 ∧
      (calculate_market_metrics ((⟨0, 0⟩ : Listing) :: exampleListings)).sales.avg_sold =
        (calculate_market_metrics exampleListings).sales.avg_sold :=
  ⟨rfl, market_metrics_spec.2.1 exampleListings ⟨0, 0⟩ rfl⟩

/-- Claim C1 (code bug evaluation): on the merged extractor outputs
consisting of a code-less record followed by a code-bearing record with the
same normalized description, the dedup loop keeps BOTH records — the output
still contains two records whose normalized descriptions coincide, because
the keep condition `desc not in seen or code` admits every code-bearing
record and never replaces the earlier one. -/
theorem dedup_keeps_code_bearing_duplicate :
    dedupProducts
        [⟨none, "Mesa Grande 180cm".data, none⟩,
         ⟨some "AB1".data, "Mesa Grande 180cm".data, none⟩] =
      [⟨none, "Mesa Grande 180cm".data, none⟩,
       ⟨some "AB1".data, "Mesa Grande 180cm".data, none⟩] ∧
    normDesc ⟨none, "Mesa Grande 180cm".data, none⟩ =
      normDesc ⟨some "AB1".data, "Mesa Grande 180cm".data, none⟩ := by
  decide

/-- Counterexample to claim C3 as stated: a kit parsed from an AI response
whose decoded entry carries `discount = 50` is returned with discount 50,
violating `5 ≤ discount ≤ 15`. -/
theorem parsed_kit_discount_out_of_range :
    (parse_kit_recommendations_enhanced
        [⟨none, none, [1], none, none, none, some 50, none, none, none⟩]
        [⟨"Mesa de Jantar", true, 7, 100, 10⟩]).map (·.discount) = [50] ∧
      ¬ ((50 : ℚ) ≤ 15) := by
  refine ⟨by decide, by norm_num⟩

lemma processKitEntry_lengths {avail : List PAnalysis} {idx : Nat}
    {d : KitEntryData} {k : Kit} (h : processKitEntry avail idx d = some k) :
    k.products.length = k.individual_prices.length := by
  unfold processKitEntry at h
  by_cases he : d.products.isEmpty
  · rw [if_pos he] at h
    exact absurd h (by simp)
  · rw [if_neg he] at h
    dsimp only at h
    injection h with h
    subst h
    dsimp only
    cases hip : d.individual_prices with
    | none => simp
    | some l =>
      dsimp only
      split_ifs with hc
      · simp [hc.2]
      · simp

lemma parseKitsGo_lengths (avail : List PAnalysis) :
    ∀ (entries : List KitEntryData) (acc : List Kit),
      (∀ k ∈ acc, k.products.length = k.individual_prices.length) →
      ∀ k ∈ parseKitsGo avail entries acc,
        k.products.length = k.individual_prices.length := by
  intro entries
  induction entries with
  | nil =>
    intro acc hacc k hk
    exact hacc k hk
  | cons d rest ih =>
    intro acc hacc k hk
    unfold parseKitsGo at hk
    cases hpe : processKitEntry avail acc.length d with
    | some kit =>
      rw [hpe] at hk
      refine ih _ ?_ k hk
      intro k' hk'
      rcases List.mem_append.mp hk' with h' | h'
      · exact hacc k' h'
      · rw [List.mem_singleton.mp h']
        exact processKitEntry_lengths hpe
    | none =>
      rw [hpe] at hk
      exact ih _ hacc k hk

lemma create_kit_invariants (ps : List PAnalysis)
    (name audience pitch reasoning : String)
    (hn : ∀ q ∈ ps, q.product_name ≠ "")
    (hp : ∀ q ∈ ps, 0 ≤ q.average_price) :
    (create_kit_from_products ps name audience pitch reasoning).products.length
        = ps.length ∧
    (create_kit_from_products ps name audience pitch
        reasoning).individual_prices.length = ps.length ∧
    (create_kit_from_products ps name audience pitch reasoning).kit_price ≤
      (create_kit_from_products ps name audience pitch reasoning).total_price ∧
    5 ≤ (create_kit_from_products ps name audience pitch reasoning).discount ∧
    (create_kit_from_products ps name audience pitch reasoning).discount
      ≤ 15 := by
  have hfil : ((ps.map (·.product_name)).filter (· ≠ "")).length = ps.length := by
    have : (ps.map (·.product_name)).filter (· ≠ "") = ps.map (·.product_name) := by
      rw [List.filter_eq_self]
      intro a ha
      obtain ⟨q, hq, rfl⟩ := List.mem_map.mp ha
      simpa using hn q hq
    rw [this, List.length_map]
  have htot : 0 ≤ (ps.map (·.average_price)).sum := by
    apply List.sum_nonneg
    intro a ha
    obtain ⟨q, hq, rfl⟩ := List.mem_map.mp ha
    exact hp q hq
  unfold create_kit_from_products
  dsimp only
  refine ⟨hfil, by simp, ?_, ?_, ?_⟩
  · apply mul_le_of_le_one_right htot
    split_ifs <;> norm_num
  · split_ifs <;> norm_num
  · split_ifs <;> norm_num

lemma enrichKit_bounds (k : Kit) (h : 0 ≤ k.total_price) :
    5 ≤ (enrichKit k).discount ∧ (enrichKit k).discount ≤ 15 ∧
      (enrichKit k).kit_price ≤ (enrichKit k).total_price := by
  unfold enrichKit
  dsimp only
  split_ifs with h1 h2
  · exact ⟨le_refl _, by norm_num,
      mul_le_of_le_one_right h (by norm_num)⟩
  · exact ⟨by norm_num, le_refl _,
      mul_le_of_le_one_right h (by norm_num)⟩
  · push_neg at h1 h2
    push_cast at h1 h2 ⊢
    refine ⟨h1, h2, mul_le_of_le_one_right h ?_⟩
    have : (0:ℚ) ≤ ↑(pyRound (k.discount / 5)) * 5 / 100 := by linarith
    linarith

/-- Claim C3 amended: kits built by `create_kit_from_products` from products
that all carry a non-empty name and nonnegative average prices satisfy
`len(products) = len(individual_prices) = kit_size`, `kit_price ≤
total_price` and `5 ≤ discount ≤ 15`; kits parsed from an AI response always
satisfy `len(products) = len(individual_prices)` but inherit the response's
discount and prices unchecked, and it is the later `enrich_kits` pass that
clamps the discount into `[5, 15]` and restores `kit_price ≤ total_price`
(for nonnegative totals). -/
theorem kit_structure_spec :
    (∀ (ps : List PAnalysis) (name audience pitch reasoning : String),
      (∀ q ∈ ps, q.product_name ≠ "") → (∀ q ∈ ps, 0 ≤ q.average_price) →
      (create_kit_from_products ps name audience pitch
          reasoning).products.length = ps.length ∧
      (create_kit_from_products ps name audience pitch
          reasoning).individual_prices.length = ps.length ∧
      (create_kit_from_products ps name audience pitch reasoning).kit_price ≤
        (create_kit_from_products ps name audience pitch
          reasoning).total_price ∧
      5 ≤ (create_kit_from_products ps name audience pitch
          reasoning).discount ∧
      (create_kit_from_products ps name audience pitch reasoning).discount
        ≤ 15) ∧
    (∀ (entries : List KitEntryData) (avail : List PAnalysis),
      ∀ k ∈ parse_kit_recommendations_enhanced entries avail,
        k.products.length = k.individual_prices.length) ∧
    (∀ k : Kit, 0 ≤ k.total_price →
      5 ≤ (enrichKit k).discount ∧ (enrichKit k).discount ≤ 15 ∧
        (enrichKit k).kit_price ≤ (enrichKit k).total_price) := by
  refine ⟨create_kit_invariants, ?_, enrichKit_bounds⟩
  intro entries avail k hk
  exact parseKitsGo_lengths avail entries [] (by simp) k hk

/-- Witness for C3: the `create_kit_from_products` clause applied to one
concrete named product with a nonnegative price. -/
theorem kit_structure_spec_witness :
    (∀ q ∈ [(⟨"Mesa de Jantar", true, 7, 100, 10⟩ : PAnalysis)],
      q.product_name ≠ "") ∧
    (∀ q ∈ [(⟨"Mesa de Jantar", true, 7, 100, 10⟩ : PAnalysis)],
      0 ≤ q.average_price) ∧
    (create_kit_from_products [⟨"Mesa de Jantar", true, 7, 100, 10⟩]
        "Kit Teste" "Todos" "Pitch" "Motivo").products.length = 1 ∧
    (create_kit_from_products [⟨"Mesa de Jantar", true, 7, 100, 10⟩]
        "Kit Teste" "Todos" "Pitch" "Motivo").individual_prices.length = 1 :=
  ⟨by decide, by decide,
   (kit_structure_spec.1 [⟨"Mesa de Jantar", true, 7, 100, 10⟩]
     "Kit Teste" "Todos" "Pitch" "Motivo" (by decide) (by decide)).1,
   (kit_structure_spec.1 [⟨"Mesa de Jantar", true, 7, 100, 10⟩]
     "Kit Teste" "Todos" "Pitch" "Motivo" (by decide) (by decide)).2.1⟩


lemma guardAppend_le {max_kits : Nat} {acc : List Kit} {kit : Kit}
    (h : acc.length ≤ max_kits) :
    (guardAppend max_kits acc kit).length ≤ max_kits := by
  unfold guardAppend
  split_ifs with h1
  · simp only [List.length_append, List.length_singleton]
    omega
  · exact h

lemma hybridStep1_le (max_kits kit_size : Nat) :
    ∀ (cats : List (String × List PAnalysis)) (acc : List Kit),
      acc.length ≤ max_kits →
      (hybridStep1 max_kits kit_size cats acc).length ≤ max_kits := by
  intro cats
  induction cats with
  | nil => intro acc h; simpa [hybridStep1] using h
  | cons e rest ih =>
    intro acc h
    obtain ⟨c, ps⟩ := e
    unfold hybridStep1
    split_ifs with hc
    · refine ih _ ?_
      simp only [List.length_append, List.length_singleton]
      omega
    · exact ih _ h

lemma hybridStep2_le (max_kits kit_size : Nat)
    (top_by : List (String × List PAnalysis)) :
    ∀ (pairs : List (String × String)) (acc : List Kit),
      acc.length ≤ max_kits →
      (hybridStep2 max_kits kit_size top_by pairs acc).length ≤ max_kits := by
  intro pairs
  induction pairs with
  | nil => intro acc h; simpa [hybridStep2] using h
  | cons e rest ih =>
    intro acc h
    obtain ⟨c1, c2⟩ := e
    unfold hybridStep2
    split_ifs with hc
    · exact h
    · refine ih _ ?_
      cases hl1 : lookupCat top_by c1 with
      | none => exact h
      | some ps1 =>
        cases hl2 : lookupCat top_by c2 with
        | none => exact h
        | some ps2 =>
          dsimp only
          split_ifs <;>
            (try simp only [List.length_append, List.length_singleton]) <;>
            omega

lemma hybridStep3_le (max_kits kit_size : Nat) (products : List PAnalysis)
    (acc : List Kit) (h : acc.length ≤ max_kits) :
    (hybridStep3 max_kits kit_size products acc).length ≤ max_kits := by
  unfold hybridStep3
  dsimp only
  split_ifs with h1 h2
  · exact guardAppend_le (guardAppend_le (guardAppend_le h))
  · exact h
  · exact h

lemma hybridStep4_le (max_kits kit_size : Nat) (products : List PAnalysis)
    (acc : List Kit) (h : acc.length ≤ max_kits) :
    (hybridStep4 max_kits kit_size products acc).length ≤ max_kits := by
  unfold hybridStep4
  dsimp only
  split_ifs with h1 h2
  · simp only [List.length_append, List.length_singleton]
    omega
  · exact h
  · exact h

lemma hybridStep5_le (max_kits kit_size : Nat) (products : List PAnalysis)
    (rand : Nat → List PAnalysis) :
    ∀ (fuel : Nat) (acc : List Kit), acc.length ≤ max_kits →
      (hybridStep5 max_kits kit_size products rand fuel acc).length
        ≤ max_kits := by
  intro fuel
  induction fuel with
  | zero => intro acc h; simpa [hybridStep5] using h
  | succ n ih =>
    intro acc h
    unfold hybridStep5
    split_ifs with h1 h2
    · refine ih _ ?_
      simp only [List.length_append, List.length_singleton]
      omega
    · exact h
    · exact h

lemma generate_hybrid_kits_le (products : List PAnalysis)
    (categorized top_by : List (String × List PAnalysis))
    (max_kits kit_size : Nat) (rand : Nat → List PAnalysis) :
    (generate_hybrid_kits products categorized top_by max_kits kit_size
      rand).length ≤ max_kits := by
  unfold generate_hybrid_kits
  exact hybridStep5_le _ _ _ _ _ _
    (hybridStep4_le _ _ _ _
      (hybridStep3_le _ _ _ _
        (hybridStep2_le _ _ _ _ _
          (hybridStep1_le _ _ _ _ (by simp)))))

/-- Claim C5 amended: the hybrid rule-based fallback path returns at most
`max_kits` kits (every append is guarded by the kit count), and so does
`generate_smart_kits` whenever the AI path is not used; on the AI path the
parsed and enriched kit list is returned without truncation whenever it
holds at least `max_kits // 2` kits, so the result can exceed `max_kits`. -/
theorem kit_count_spec :
    (∀ (products : List PAnalysis)
        (categorized top_by : List (String × List PAnalysis))
        (max_kits kit_size : Nat) (rand : Nat → List PAnalysis),
      (generate_hybrid_kits products categorized top_by max_kits kit_size
        rand).length ≤ max_kits) ∧
    (∀ (product_analyses : List PAnalysis) (max_kits kit_size : Nat)
        (api_key : Bool) (aiEntries : Option (List KitEntryData))
        (rand : Nat → List PAnalysis),
      (generate_smart_kits product_analyses max_kits kit_size false api_key
        aiEntries rand).length ≤ max_kits) := by
  refine ⟨generate_hybrid_kits_le, ?_⟩
  intro analyses max_kits kit_size api_key aiE rand
  unfold generate_smart_kits
  dsimp only
  rw [if_neg (show ¬((false : Bool) = true ∧ api_key = true) by simp)]
  split_ifs with h1
  · simp
  · exact generate_hybrid_kits_le _ _ _ _ _ _

/-- Counterexample to claim C5 as stated: with `max_kits = 5` and an AI
response decoding to six kit entries, `generate_smart_kits` returns six
kits, exceeding `max_kits`. -/
theorem smart_kits_exceed_max :
    ¬ ((generate_smart_kits [⟨"Mesa de Jantar", true, 7, 100, 10⟩] 5 1 true
        true
        (some (List.replicate 6
          ⟨none, none, [1], none, none, none, none, none, none, none⟩))
        (fun _ => [])).length ≤ 5) := by
  decide


set_option maxRecDepth 10000 in
/-- Claim C9: the shared line parser applied to the single line
`"MSA-102  Mesa de Escritório 120cm   2   350,00"` returns exactly the
record with code `"MSA-102"`, description `"Mesa de Escritório 120cm"` and
price 350. -/
theorem parse_product_line_example :
    parse_product_line
        "MSA-102  Mesa de Escritório 120cm   2   350,00".data =
      some ⟨some "MSA-102".data, "Mesa de Escritório 120cm".data,
        some 350⟩ := by
  have hrest : parse_product_line
      "MSA-102  Mesa de Escritório 120cm   2   350,00".data =
      some ⟨some "MSA-102".data, "Mesa de Escritório 120cm".data,
        extractLinePrice
          "MSA-102  Mesa de Escritório 120cm   2   350,00".data⟩ := by rfl
  have hp : extractLinePrice
      "MSA-102  Mesa de Escritório 120cm   2   350,00".data =
      some (((350 : ℕ) : ℚ) + ((0 : ℕ) : ℚ) / (10 : ℚ) ^ (2 : ℕ)) := by rfl
  rw [hrest, hp]
  norm_num
